import Mathlib

/-!
Verification of the ProjectorStepper controller specification against the
repository source. The only source file, `src/Constants.h`, declares the pin
assignment, the serial-protocol string tokens, direction/switch encodings and
the two global mode flags; those constants are embedded below under their
source names. The dispatch logic, state machine and serial framing that the
remaining claims describe are code of the repository that is not under `src/`,
so they are modelled from the specification (each such definition is marked
`Modelled from the spec:`).
-/

namespace ProjectorStepper

/-! ## Constants from src/Constants.h -/

/-- Source `src/Constants.h` line 9: digital pin for the clutch output. -/
def PIN_CLUTCH : Nat := 2

/-- Source `src/Constants.h` line 10: digital pin for the motor-enable output. -/
def PIN_MOTORON : Nat := 3

/-- Source `src/Constants.h` line 11: digital pin for motor direction line 1. -/
def PIN_MOTORDIRECTION1 : Nat := 4

/-- Source `src/Constants.h` line 12: digital pin for motor direction line 2. -/
def PIN_MOTORDIRECTION2 : Nat := 5

/-- Source `src/Constants.h` line 13: digital pin for the film-interrupt input. -/
def PIN_FILMINTERRUPT : Nat := 6

/-- Source `src/Constants.h` line 14: digital pin for the optical-sensor input. -/
def PIN_OPTICALSENSOR : Nat := 7

/-- The six pin constants in declaration order, as a list. -/
def pinList : List Nat :=
  [PIN_CLUTCH, PIN_MOTORON, PIN_MOTORDIRECTION1, PIN_MOTORDIRECTION2,
   PIN_FILMINTERRUPT, PIN_OPTICALSENSOR]

/-- Source line 29: prefix for controller-to-host lines. -/
def CMD_SEND : String := "CTS:"

/-- Source line 30: prefix for host-to-controller lines. -/
def CMD_RECEIVE : String := "STC:"

/-- Source line 32: acknowledgement token. -/
def CMD_OK : String := "OK"

/-- Source line 33: error-response token, followed by an error code or text. -/
def RSP_ERR : String := "ERROR: "

/-- Source line 34: instruction to move to the next film cell. -/
def CMD_NEXTCELL : String := "NEXTCELL"

/-- Source line 35: instruction to rewind the film. -/
def CMD_REWIND : String := "REWIND"

/-- Source line 36: instruction to turn the main motor on. -/
def CMD_MOTORON : String := "MOTORON"

/-- Source line 37: instruction to turn the main motor off. -/
def CMD_MOTOROFF : String := "MOTOROFF"

/-- Source line 38: token indicating readiness to receive instructions. -/
def CMD_READY : String := "READY"

/-- Source line 39: connection-check token. -/
def CMD_PING : String := "PING"

/-- Source line 40: token indicating the film is positioned for capture. -/
def CMD_ATCELL : String := "ATCELL"

/-- Source line 41: token for the optical-sensor test function. -/
def CMD_TESTOPTO : String := "OPTIC"

/-- Source line 53: forward motor direction encoding. -/
def FORWARD : Nat := 1

/-- Source line 54: backward motor direction encoding. -/
def BACKWARD : Nat := 0

/-- Source line 55: logic level that switches an output on. -/
def SWITCHON : Nat := 1

/-- Source line 56: logic level that switches an output off. -/
def SWITCHOFF : Nat := 0

/-- Source line 60: global debug flag, initialised to 0. -/
def debugMode : Int := 0

/-- Source line 61: global busy flag, initialised to 0. -/
def inPriorityCommand : Int := 0

/-! ## Controller model

The controller behaviour is not present under `src/`; the following
definitions are modelled from the specification (sections 4, 5 and 6). -/

/-- Modelled from the spec: the fixed command vocabulary of `dispatch`
(section 4.1), plus a constructor for unrecognized verbs. -/
inductive Cmd where
  | PING
  | READY
  | MOTORON
  | MOTOROFF
  | NEXTCELL
  | REWIND
  | OPTIC
  | UNKNOWN (verb : String)
  deriving DecidableEq, Repr

/-- Modelled from the spec: the controller states of the state machine
(section 4.1). -/
inductive Mode where
  | IDLE
  | MOTOR_ON
  | ADVANCING
  | REWINDING
  deriving DecidableEq, Repr

/-- Modelled from the spec: responses a dispatch may produce — `OK`,
`OK` with a sensor-state payload, `ATCELL`, or `ERROR: ` with text. -/
inductive Resp where
  | OK
  | OKPayload (payload : String)
  | ATCELL
  | ERR (text : String)
  deriving DecidableEq, Repr

/-- Modelled from the spec: the controller state — state-machine mode, motor
flag, the three hardware output levels, and the two global mode flags
(`debugMode`, `inPriorityCommand`) of section 3. -/
structure CState where
  mode : Mode
  motorOn : Bool
  clutch : Nat
  motorEnable : Nat
  direction : Nat
  debugMode : Bool
  inPriorityCommand : Bool
  deriving DecidableEq, Repr

/-- Modelled from the spec: the initial controller state — IDLE, motor off,
outputs off, both global flags clear (source initialises both globals to 0). -/
def initState : CState :=
  { mode := Mode.IDLE
    motorOn := false
    clutch := SWITCHOFF
    motorEnable := SWITCHOFF
    direction := FORWARD
    debugMode := false
    inPriorityCommand := false }

/-- Modelled from the spec: the bounded busy-wait of NEXTCELL/REWIND
(section 5). Polls the sensor at steps `i, i+1, ...` for at most `fuel`
polls and returns the first step at which the sensor signals, if any. -/
def waitFrom (sensor : Nat → Bool) (i : Nat) : Nat → Option Nat
  | 0 => none
  | fuel + 1 => if sensor i then some i else waitFrom sensor (i + 1) fuel

/-- Modelled from the spec: busy-wait from step 0 with `timeout` polls. -/
def waitForSignal (sensor : Nat → Bool) (timeout : Nat) : Option Nat :=
  waitFrom sensor 0 timeout

/-- Modelled from the spec: `dispatch` (section 4.1) — the core
state-transition function. While `inPriorityCommand` is set only PING is
honored; otherwise commands follow the vocabulary table. NEXTCELL/REWIND
set `inPriorityCommand` for their duration, busy-wait on the sensor with a
timeout, and clear the flag before returning (section 5: the operation runs
to completion or timeout before yielding back to the dispatch loop). -/
def dispatch (sensor : Nat → Bool) (timeout : Nat) (s : CState) (c : Cmd) :
    Resp × CState :=
  if s.inPriorityCommand ∧ c ≠ Cmd.PING then
    (Resp.ERR "busy", s)
  else
    match c with
    | Cmd.PING => (Resp.OK, s)
    | Cmd.READY => (Resp.OK, s)
    | Cmd.MOTORON =>
        if s.motorOn then
          (Resp.ERR "already on", s)
        else
          (Resp.OK,
            { s with mode := Mode.MOTOR_ON, motorOn := true,
                     motorEnable := SWITCHON })
    | Cmd.MOTOROFF =>
        if s.motorOn then
          (Resp.OK,
            { s with mode := Mode.IDLE, motorOn := false,
                     motorEnable := SWITCHOFF })
        else
          (Resp.ERR "already off", s)
    | Cmd.NEXTCELL =>
        if s.motorOn then
          match waitForSignal sensor timeout with
          | some _ =>
              (Resp.ATCELL,
                { s with mode := Mode.MOTOR_ON, direction := FORWARD,
                         clutch := SWITCHOFF, inPriorityCommand := false })
          | none =>
              (Resp.ERR "timeout waiting for film interrupt",
                { s with mode := Mode.MOTOR_ON, direction := FORWARD,
                         clutch := SWITCHOFF, inPriorityCommand := false })
        else
          (Resp.ERR "motor not on", s)
    | Cmd.REWIND =>
        if s.motorOn then
          match waitForSignal sensor timeout with
          | some _ =>
              (Resp.OK,
                { s with mode := Mode.MOTOR_ON, direction := BACKWARD,
                         inPriorityCommand := false })
          | none =>
              (Resp.ERR "timeout waiting for start of reel",
                { s with mode := Mode.MOTOR_ON, direction := BACKWARD,
                         inPriorityCommand := false })
        else
          (Resp.ERR "motor not on", s)
    | Cmd.OPTIC =>
        (Resp.OKPayload (if sensor 0 then "1" else "0"), s)
    | Cmd.UNKNOWN v =>
        (Resp.ERR ("unrecognized command: " ++ v), s)

/-- Modelled from the spec: run a list of commands through `dispatch`,
collecting the responses and the final state. -/
def runTrace (sensor : Nat → Bool) (timeout : Nat) :
    CState → List Cmd → List Resp × CState
  | s, [] => ([], s)
  | s, c :: cs =>
      let rs := dispatch sensor timeout s c
      let rest := runTrace sensor timeout rs.2 cs
      (rs.1 :: rest.1, rest.2)

/-- The command verbs of the fixed vocabulary, as source string tokens. -/
def vocab : List String :=
  [CMD_NEXTCELL, CMD_REWIND, CMD_MOTORON, CMD_MOTOROFF, CMD_READY,
   CMD_PING, CMD_TESTOPTO]

/-- Modelled from the spec: parse a command verb against the fixed
vocabulary (section 9: internal logic operates on a tagged variant parsed
at the serial boundary). -/
def parseVerb (v : String) : Cmd :=
  if v = CMD_PING then Cmd.PING
  else if v = CMD_READY then Cmd.READY
  else if v = CMD_MOTORON then Cmd.MOTORON
  else if v = CMD_MOTOROFF then Cmd.MOTOROFF
  else if v = CMD_NEXTCELL then Cmd.NEXTCELL
  else if v = CMD_REWIND then Cmd.REWIND
  else if v = CMD_TESTOPTO then Cmd.OPTIC
  else Cmd.UNKNOWN v

/-- Modelled from the spec: `sendResponse` frames a response as a
controller-to-host line with the `CTS:` prefix (section 6). -/
def renderResp : Resp → String
  | Resp.OK => CMD_OK
  | Resp.OKPayload p => CMD_OK ++ " " ++ p
  | Resp.ATCELL => CMD_ATCELL
  | Resp.ERR t => RSP_ERR ++ t

/-- Modelled from the spec: the serialized controller-to-host line. -/
def sendResponse (r : Resp) : String := CMD_SEND ++ renderResp r

/-- Modelled from the spec: a host-to-controller line is the `STC:` prefix
followed by the command verb (section 6). -/
def hostLine (v : String) : String := CMD_RECEIVE ++ v

/-- Modelled from the spec: `initialize` (not under `src/`) configures the
pin lines and fails fatally iff the pin assignment reuses a pin for two
roles (section 4.1). -/
def initHardware (pins : List Nat) : Except String Unit :=
  if pins.Nodup then Except.ok () else Except.error "duplicate pin assignment"

/-! ## Helper lemmas -/

/-- A successful busy-wait starting at step `j` with `fuel` polls reports a
step below `j + fuel`. -/
theorem waitFrom_lt (sensor : Nat → Bool) :
    ∀ (fuel j i : Nat), waitFrom sensor j fuel = some i → i < j + fuel := by
  intro fuel
  induction fuel with
  | zero => intro j i h; simp [waitFrom] at h
  | succ n ih =>
      intro j i h
      rw [waitFrom] at h
      by_cases hs : sensor j
      · simp [hs] at h
        omega
      · simp [hs] at h
        have := ih (j + 1) i h
        omega

/-- Dispatching any command from a state with `inPriorityCommand` clear
leaves it clear: NEXTCELL/REWIND clear it again on return, and nothing else
sets it. -/
theorem dispatch_keeps_flag_clear (sensor : Nat → Bool) (timeout : Nat)
    (s : CState) (c : Cmd) (hs : s.inPriorityCommand = false) :
    (dispatch sensor timeout s c).2.inPriorityCommand = false := by
  cases c <;> simp [dispatch, hs] <;>
    (try split) <;> (try split) <;> simp [hs]

/-- Running any command trace from a state with `inPriorityCommand` clear
ends with it clear. -/
theorem runTrace_flag_clear (sensor : Nat → Bool) (timeout : Nat) :
    ∀ (cmds : List Cmd) (s : CState), s.inPriorityCommand = false →
      (runTrace sensor timeout s cmds).2.inPriorityCommand = false
  | [], _, hs => hs
  | c :: cs, s, hs =>
      runTrace_flag_clear sensor timeout cs (dispatch sensor timeout s c).2
        (dispatch_keeps_flag_clear sensor timeout s c hs)

/-! ## Claim theorems -/

/-- Claim C1: in every state with `inPriorityCommand` set, dispatching any
command other than PING returns an ERROR (busy) response and leaves the whole
controller state — in particular the motor and clutch outputs — unaltered,
while PING is still answered with OK and also leaves the state unaltered. -/
theorem busy_rejects_all_but_ping (sensor : Nat → Bool) (timeout : Nat)
    (s : CState) (c : Cmd) (hbusy : s.inPriorityCommand = true)
    (hc : c ≠ Cmd.PING) :
    dispatch sensor timeout s c = (Resp.ERR "busy", s) ∧
    dispatch sensor timeout s Cmd.PING = (Resp.OK, s) := by
  constructor
  · simp [dispatch, hbusy, hc]
  · simp [dispatch]

/-- Claim C1 witness: a concrete busy state rejects MOTORON and honors PING. -/
theorem busy_rejects_all_but_ping_witness :
    dispatch (fun _ => false) 0 { initState with inPriorityCommand := true }
        Cmd.MOTORON =
      (Resp.ERR "busy", { initState with inPriorityCommand := true }) ∧
    dispatch (fun _ => false) 0 { initState with inPriorityCommand := true }
        Cmd.PING =
      (Resp.OK, { initState with inPriorityCommand := true }) :=
  busy_rejects_all_but_ping (fun _ => false) 0
    { initState with inPriorityCommand := true } Cmd.MOTORON rfl (by decide)

/-- Claim C2: every execution of NEXTCELL or REWIND (from any non-busy state,
whether it succeeds or times out) returns with `inPriorityCommand` clear, and
no command trace reachable from the initial state leaves it set. -/
theorem priority_flag_cleared (sensor : Nat → Bool) (timeout : Nat) :
    (∀ s : CState, s.inPriorityCommand = false →
      (dispatch sensor timeout s Cmd.NEXTCELL).2.inPriorityCommand = false ∧
      (dispatch sensor timeout s Cmd.REWIND).2.inPriorityCommand = false) ∧
    (∀ cmds : List Cmd,
      (runTrace sensor timeout initState cmds).2.inPriorityCommand = false) := by
  constructor
  · intro s hs
    exact ⟨dispatch_keeps_flag_clear sensor timeout s Cmd.NEXTCELL hs,
           dispatch_keeps_flag_clear sensor timeout s Cmd.REWIND hs⟩
  · intro cmds
    exact runTrace_flag_clear sensor timeout cmds initState rfl

/-- Claim C2 witness: NEXTCELL from a concrete motor-on state, and a concrete
trace containing NEXTCELL and REWIND, both end with the flag clear. -/
theorem priority_flag_cleared_witness :
    (dispatch (fun _ => true) 1 { initState with motorOn := true }
        Cmd.NEXTCELL).2.inPriorityCommand = false ∧
    (runTrace (fun _ => true) 1 initState
        [Cmd.MOTORON, Cmd.NEXTCELL, Cmd.REWIND]).2.inPriorityCommand = false :=
  ⟨((priority_flag_cleared (fun _ => true) 1).1
      { initState with motorOn := true } rfl).1,
   (priority_flag_cleared (fun _ => true) 1).2
      [Cmd.MOTORON, Cmd.NEXTCELL, Cmd.REWIND]⟩

/-- Claim C3: every host-to-controller line is the prefix `STC:` followed by
a verb of the fixed vocabulary, and every controller-to-host line is the
prefix `CTS:` followed by `OK`, an ATCELL/sensor-state payload, or `ERROR: `
plus descriptive text. -/
theorem protocol_line_shapes :
    (∀ v ∈ vocab, ∃ rest, hostLine v = "STC:" ++ rest ∧ rest ∈ vocab) ∧
    (∀ r : Resp, ∃ rest, sendResponse r = "CTS:" ++ rest ∧
      (rest = CMD_OK ∨ (∃ p, rest = CMD_OK ++ " " ++ p) ∨ rest = CMD_ATCELL ∨
        ∃ t, rest = RSP_ERR ++ t)) := by
  constructor
  · intro v hv
    exact ⟨v, rfl, hv⟩
  · intro r
    cases r with
    | OK => exact ⟨CMD_OK, rfl, Or.inl rfl⟩
    | OKPayload p => exact ⟨CMD_OK ++ " " ++ p, rfl, Or.inr (Or.inl ⟨p, rfl⟩)⟩
    | ATCELL => exact ⟨CMD_ATCELL, rfl, Or.inr (Or.inr (Or.inl rfl))⟩
    | ERR t => exact ⟨RSP_ERR ++ t, rfl, Or.inr (Or.inr (Or.inr ⟨t, rfl⟩))⟩

/-- Claim C3 witness: the PING host line and the OK response line have the
required shapes. -/
theorem protocol_line_shapes_witness :
    (∃ rest, hostLine CMD_PING = "STC:" ++ rest ∧ rest ∈ vocab) ∧
    (∃ rest, sendResponse Resp.OK = "CTS:" ++ rest ∧
      (rest = CMD_OK ∨ (∃ p, rest = CMD_OK ++ " " ++ p) ∨ rest = CMD_ATCELL ∨
        ∃ t, rest = RSP_ERR ++ t)) :=
  ⟨protocol_line_shapes.1 CMD_PING (by decide),
   protocol_line_shapes.2 Resp.OK⟩

/-- Claim C4: MOTORON in any state with the motor already on returns ERROR,
MOTOROFF in any state with the motor already off returns ERROR; concretely,
MOTORON twice from the initial state errors on the second call, and MOTORON,
MOTOROFF, MOTOROFF errors on the second MOTOROFF. -/
theorem motor_double_toggle_errors (sensor : Nat → Bool) (timeout : Nat)
    (s : CState) :
    (s.motorOn = true →
      ∃ e, (dispatch sensor timeout s Cmd.MOTORON).1 = Resp.ERR e) ∧
    (s.motorOn = false →
      ∃ e, (dispatch sensor timeout s Cmd.MOTOROFF).1 = Resp.ERR e) ∧
    (runTrace sensor timeout initState [Cmd.MOTORON, Cmd.MOTORON]).1 =
      [Resp.OK, Resp.ERR "already on"] ∧
    (runTrace sensor timeout initState
        [Cmd.MOTORON, Cmd.MOTOROFF, Cmd.MOTOROFF]).1 =
      [Resp.OK, Resp.OK, Resp.ERR "already off"] := by
  refine ⟨?_, ?_, ?_, ?_⟩
  · intro hm
    by_cases hb : s.inPriorityCommand = true
    · exact ⟨"busy", by simp [dispatch, hb]⟩
    · exact ⟨"already on", by simp [dispatch, hb, hm]⟩
  · intro hm
    by_cases hb : s.inPriorityCommand = true
    · exact ⟨"busy", by simp [dispatch, hb]⟩
    · exact ⟨"already off", by simp [dispatch, hb, hm]⟩
  · simp [runTrace, dispatch, initState]
  · simp [runTrace, dispatch, initState]

/-- Claim C4 witness: a concrete motor-on state rejects MOTORON and the
initial (motor-off) state rejects MOTOROFF. -/
theorem motor_double_toggle_errors_witness :
    (∃ e, (dispatch (fun _ => false) 0 { initState with motorOn := true }
      Cmd.MOTORON).1 = Resp.ERR e) ∧
    (∃ e, (dispatch (fun _ => false) 0 initState Cmd.MOTOROFF).1 =
      Resp.ERR e) :=
  ⟨(motor_double_toggle_errors (fun _ => false) 0
      { initState with motorOn := true }).1 rfl,
   (motor_double_toggle_errors (fun _ => false) 0 initState).2.1 rfl⟩

/-- Claim C5: dispatching a verb outside the fixed vocabulary returns an
ERROR response and leaves the entire controller state — in particular the
`debugMode` and `inPriorityCommand` flags — unchanged. -/
theorem unrecognized_verb_rejected (v : String) (hv : v ∉ vocab)
    (sensor : Nat → Bool) (timeout : Nat) (s : CState) :
    ∃ e, dispatch sensor timeout s (parseVerb v) = (Resp.ERR e, s) := by
  have hp : parseVerb v = Cmd.UNKNOWN v := by
    simp only [vocab, List.mem_cons, List.not_mem_nil, or_false, not_or] at hv
    obtain ⟨h1, h2, h3, h4, h5, h6, h7⟩ := hv
    simp [parseVerb, h1, h2, h3, h4, h5, h6, h7]
  rw [hp]
  by_cases hb : s.inPriorityCommand = true
  · exact ⟨"busy", by simp [dispatch, hb]⟩
  · exact ⟨"unrecognized command: " ++ v, by simp [dispatch, hb]⟩

/-- Claim C5 witness: the concrete unknown verb FOO is rejected with an
ERROR and the initial state is unchanged. -/
theorem unrecognized_verb_rejected_witness :
    ∃ e, dispatch (fun _ => false) 0 initState (parseVerb "FOO") =
      (Resp.ERR e, initState) :=
  unrecognized_verb_rejected "FOO" (by decide) (fun _ => false) 0 initState

/-- Claim C6: from the initial IDLE state, when the sensor signals within the
timeout, the sequence MOTORON, NEXTCELL, NEXTCELL, MOTOROFF yields responses
OK, ATCELL, ATCELL, OK with no ERROR, and the controller ends in IDLE. -/
theorem roundtrip_sequence (sensor : Nat → Bool) (timeout : Nat)
    (h : (waitForSignal sensor timeout).isSome = true) :
    (runTrace sensor timeout initState
        [Cmd.MOTORON, Cmd.NEXTCELL, Cmd.NEXTCELL, Cmd.MOTOROFF]).1 =
      [Resp.OK, Resp.ATCELL, Resp.ATCELL, Resp.OK] ∧
    (runTrace sensor timeout initState
        [Cmd.MOTORON, Cmd.NEXTCELL, Cmd.NEXTCELL, Cmd.MOTOROFF]).2.mode =
      Mode.IDLE := by
  obtain ⟨i, hi⟩ := Option.isSome_iff_exists.mp h
  constructor <;> simp [runTrace, dispatch, initState, hi]

/-- Claim C6 witness: the round trip with an always-signalling sensor. -/
theorem roundtrip_sequence_witness :
    (runTrace (fun _ => true) 1 initState
        [Cmd.MOTORON, Cmd.NEXTCELL, Cmd.NEXTCELL, Cmd.MOTOROFF]).1 =
      [Resp.OK, Resp.ATCELL, Resp.ATCELL, Resp.OK] ∧
    (runTrace (fun _ => true) 1 initState
        [Cmd.MOTORON, Cmd.NEXTCELL, Cmd.NEXTCELL, Cmd.MOTOROFF]).2.mode =
      Mode.IDLE :=
  roundtrip_sequence (fun _ => true) 1 rfl

/-- Claim C7: for every sensor behaviour (including one that never signals)
and every state, NEXTCELL returns ATCELL or an ERROR and REWIND returns OK
or an ERROR — the busy-wait is bounded: any observed signal step is below
the timeout, so the operation cannot block indefinitely. -/
theorem operations_terminate (sensor : Nat → Bool) (timeout : Nat)
    (s : CState) :
    ((dispatch sensor timeout s Cmd.NEXTCELL).1 = Resp.ATCELL ∨
      ∃ e, (dispatch sensor timeout s Cmd.NEXTCELL).1 = Resp.ERR e) ∧
    ((dispatch sensor timeout s Cmd.REWIND).1 = Resp.OK ∨
      ∃ e, (dispatch sensor timeout s Cmd.REWIND).1 = Resp.ERR e) ∧
    (∀ i, waitForSignal sensor timeout = some i → i < timeout) := by
  refine ⟨?_, ?_, ?_⟩
  · by_cases hb : s.inPriorityCommand = true
    · exact Or.inr ⟨"busy", by simp [dispatch, hb]⟩
    · by_cases hm : s.motorOn = true
      · cases hw : waitForSignal sensor timeout with
        | some i => exact Or.inl (by simp [dispatch, hb, hm, hw])
        | none =>
            exact Or.inr ⟨"timeout waiting for film interrupt",
              by simp [dispatch, hb, hm, hw]⟩
      · exact Or.inr ⟨"motor not on", by simp [dispatch, hb, hm]⟩
  · by_cases hb : s.inPriorityCommand = true
    · exact Or.inr ⟨"busy", by simp [dispatch, hb]⟩
    · by_cases hm : s.motorOn = true
      · cases hw : waitForSignal sensor timeout with
        | some i => exact Or.inl (by simp [dispatch, hb, hm, hw])
        | none =>
            exact Or.inr ⟨"timeout waiting for start of reel",
              by simp [dispatch, hb, hm, hw]⟩
      · exact Or.inr ⟨"motor not on", by simp [dispatch, hb, hm]⟩
  · intro i h
    have := waitFrom_lt sensor timeout 0 i h
    omega

/-- Claim C7 witness: with a sensor that first signals at step 1 and timeout
3, NEXTCELL from the initial state returns a response, and the observed
signal step 1 is below the timeout 3. -/
theorem operations_terminate_witness :
    ((dispatch (fun n => decide (n = 1)) 3 initState Cmd.NEXTCELL).1 =
        Resp.ATCELL ∨
      ∃ e, (dispatch (fun n => decide (n = 1)) 3 initState Cmd.NEXTCELL).1 =
        Resp.ERR e) ∧
    (1 : Nat) < 3 :=
  ⟨(operations_terminate (fun n => decide (n = 1)) 3 initState).1,
   (operations_terminate (fun n => decide (n = 1)) 3 initState).2.2 1 rfl⟩

/-- Claim C8: the six pin-assignment constants take the values 2 through 7,
are pairwise distinct, and the duplicate-pin failure branch of hardware
initialisation is not taken for this compiled-in assignment. -/
theorem pins_distinct_and_init_ok :
    pinList = [2, 3, 4, 5, 6, 7] ∧ pinList.Nodup ∧
    initHardware pinList = Except.ok () := by
  refine ⟨rfl, by decide, ?_⟩
  simp [initHardware]
  decide

/-- Claim C9: at program start both globals are zero — `debugMode = 0` and
`inPriorityCommand = 0` — matching the initial controller state, which is
IDLE with both flags clear. -/
theorem initial_flags_zero :
    debugMode = 0 ∧ inPriorityCommand = 0 ∧
    initState.debugMode = false ∧ initState.inPriorityCommand = false ∧
    initState.mode = Mode.IDLE :=
  ⟨rfl, rfl, rfl, rfl, rfl⟩

/-- Claim C10: the two direction prefixes are distinct, and the ten protocol
tokens are pairwise distinct non-empty strings. -/
theorem protocol_tokens_unambiguous :
    CMD_SEND ≠ CMD_RECEIVE ∧
    ([CMD_OK, RSP_ERR, CMD_NEXTCELL, CMD_REWIND, CMD_MOTORON, CMD_MOTOROFF,
      CMD_READY, CMD_PING, CMD_ATCELL, CMD_TESTOPTO] : List String).Nodup ∧
    ∀ t ∈ [CMD_OK, RSP_ERR, CMD_NEXTCELL, CMD_REWIND, CMD_MOTORON,
      CMD_MOTOROFF, CMD_READY, CMD_PING, CMD_ATCELL, CMD_TESTOPTO],
      t ≠ "" := by
  decide

end ProjectorStepper
